import Mathlib

/-!
# CrowdBeats backend: session login, logout and the auth gate

A shallow embedding of `main.go` and the properties of its login flow.

Conventions of the embedding.

* Go `int64` values (user ids, the nanosecond clock) are `Int`.  The program
  performs no arithmetic on them (they are stored, compared for map lookup and
  printed with `%d`), so no wrap-around can occur; every theorem below holds
  for all of `Int`, hence for the `int64` range.
* The package-level variable `loggedInUsers` (a Go `map[string]int64`) is passed
  and returned explicitly.  A Go map is represented by an association list; the
  three map operations used by the program (`m[k]`, `m[k] = v`, `delete(m, k)`)
  are `mapIndex`, `mapAssign` and `mapDelete`.
* `*sql.DB` is an external collaborator.  It is represented by the table
  `gym_users`, the values the engine assigns on insert, the failure (if any)
  that the driver reports for each of the two statements, and the list of
  statements it has received.
* `*gin.Context` is represented by the request (cookies, bound JSON body) and
  what the handlers write to the response.  `c.Next()` is continuation passing:
  the middleware receives the rest of the handler chain as an argument.
* `time.Now().UnixNano()` is an input `now` of the login handler.
* `log.Printf` / `fmt.Printf` lines only write to the process output and are
  not represented.
-/

namespace CrowdBeats

/-! ## Data model -/

/-- User struct (`created_at` is kept as an integer time stamp). -/
structure User where
  ID : Int
  Username : String
  CreatedAt : Int
  Role : String
deriving DecidableEq, Repr

/-- Go `error` values produced by `database/sql`: the sentinel `sql.ErrNoRows`, or any other
failure reported by the driver. A nil `error` is `none : Option SqlError`. -/
inductive SqlError where
  | ErrNoRows
  | driver (msg : String)
deriving DecidableEq, Repr

/-- The two statements the program sends, with their bound arguments. -/
inductive Statement where
  /-- Statement `SELECT id, user_name, created_at, role FROM gym_users WHERE user_name = $1` -/
  | selectByName (username : String)
  /-- Statement `INSERT INTO gym_users (user_name, role) VALUES ($1, $2) RETURNING id` -/
  | insertUser (username role : String)
deriving DecidableEq, Repr

/-- The database behind `*sql.DB`.

* `gym_users`: the rows of the table, in the order the engine scans them;
* `nextID`, `clock`: the values the engine will assign to `id` and `created_at`
  on the next insert (the schema is not part of the repository);
* `selectFault`, `insertFault`: the failure, if any, with which the driver answers
  the SELECT resp. the INSERT statement (connection loss, constraint violation, ...);
* `received`: every statement received so far, oldest first. -/
structure DB where
  gym_users : List User
  nextID : Int
  clock : Int
  selectFault : Option String
  insertFault : Option String
  received : List Statement
deriving DecidableEq, Repr

/-- Driver call `db.QueryRow(SELECT ..., username).Scan(...)` of `getUserByUsername`: the
first matching row, `sql.ErrNoRows` when the result set is empty, or the driver failure. -/
def DB.queryRowSelect (db : DB) (username : String) : Except SqlError User × DB :=
  let db1 := { db with received := db.received ++ [Statement.selectByName username] }
  match db.selectFault with
  | some msg => (Except.error (SqlError.driver msg), db1)
  | none =>
    match db.gym_users.find? (fun r => r.Username == username) with
    | none => (Except.error SqlError.ErrNoRows, db1)
    | some r => (Except.ok r, db1)

/-- Driver call `db.QueryRow(INSERT ... RETURNING id, username, role).Scan(&id)` of
`createUser`: appends a row carrying the engine-assigned id and time stamp and returns the id,
or fails leaving the table as it was. -/
def DB.queryRowInsert (db : DB) (username role : String) : Except SqlError Int × DB :=
  let db1 := { db with received := db.received ++ [Statement.insertUser username role] }
  match db.insertFault with
  | some msg => (Except.error (SqlError.driver msg), db1)
  | none =>
    (Except.ok db.nextID,
      { db1 with
        gym_users := db.gym_users ++ [{ ID := db.nextID, Username := username,
                                        CreatedAt := db.clock, Role := role }]
        nextID := db.nextID + 1 })

/-! ## Database interaction functions -/

/-- Source `getUserByUsername`: returns `(*User, error)`. -/
def getUserByUsername (db : DB) (username : String) : (Option User × Option SqlError) × DB :=
  match db.queryRowSelect username with
  | (Except.error err, db1) =>
    if err = SqlError.ErrNoRows then ((none, none), db1)
    else ((none, some err), db1)
  | (Except.ok user, db1) => ((some user, none), db1)

/-- Source `createUser`: returns `(int64, error)`. -/
def createUser (db : DB) (username : String) : (Int × Option SqlError) × DB :=
  match db.queryRowInsert username "user" with
  | (Except.error err, db1) => ((0, some err), db1)
  | (Except.ok id, db1) => ((id, none), db1)

/-! ## Go maps and `%d` -/

/-- A Go `map[string]int64`. -/
abbrev GoMap := List (String × Int)

/-- Go `v, ok := m[k]`: the stored value and `true`, or the zero value and `false`. -/
def mapIndex (m : GoMap) (k : String) : Int × Bool :=
  match m.find? (fun e => e.1 == k) with
  | some e => (e.2, true)
  | none => (0, false)

/-- Go `delete(m, k)`. -/
def mapDelete (m : GoMap) (k : String) : GoMap :=
  m.filter (fun e => e.1 != k)

/-- Go `m[k] = v`. -/
def mapAssign (m : GoMap) (k : String) (v : Int) : GoMap :=
  (k, v) :: mapDelete m k

/-- The verb `%d` of `fmt.Sprintf` on a signed integer: a minus sign for negative values
followed by the decimal digits of the magnitude, no leading zeros, `0` for zero. -/
def fmtD : Int → String
  | Int.ofNat m => String.mk (Nat.toDigits 10 m)
  | Int.negSucc m => String.mk ('-' :: Nat.toDigits 10 (m + 1))

/-! ## Session management functions -/

/-- Source `generateSessionToken`: `fmt.Sprintf("local_session_%s_%d", username, now)` with
`now = time.Now().UnixNano()`. -/
def generateSessionToken (username : String) (now : Int) : String :=
  "local_session_" ++ username ++ "_" ++ fmtD now

/-- Source `storeSession`. -/
def storeSession (loggedInUsers : GoMap) (token : String) (userID : Int) : GoMap :=
  mapAssign loggedInUsers token userID

/-- Source `getSessionUserID`. -/
def getSessionUserID (loggedInUsers : GoMap) (token : String) : Int × Bool :=
  mapIndex loggedInUsers token

/-- Source `invalidateSession`. -/
def invalidateSession (loggedInUsers : GoMap) (token : String) : GoMap :=
  mapDelete loggedInUsers token

/-! ## The request context -/

/-- A `Set-Cookie` header as written by `c.SetCookie`. The `value` is the string handed to
`c.SetCookie`: gin escapes it when writing the header and `c.Cookie` undoes the escaping when
the client sends it back, so a cookie value is the same string at both ends. -/
structure SetCookie where
  name : String
  value : String
  maxAge : Int
  path : String
  domain : String
  secure : Bool
  httpOnly : Bool
deriving DecidableEq, Repr

/-- An incoming request.

* `cookies`: the name/value pairs of the `Cookie` header, values as `c.Cookie` returns them;
* `username`: what `c.BindJSON` finds in the body for the struct with the single field
  `username`: `none` when the body does not bind, otherwise the field (the empty string
  when the key is missing). -/
structure Request where
  cookies : List (String × String)
  username : Option String
deriving DecidableEq, Repr

/-- A JSON object `gin.H` with string values. -/
abbrev H := List (String × String)

/-- The part of `*gin.Context` the handlers touch. -/
structure Context where
  request : Request
  status : Nat
  body : Option H
  setCookies : List SetCookie
  keys : GoMap
  aborted : Bool
deriving DecidableEq, Repr

/-- A context as the router creates it for a request: status 200 until a handler says
otherwise, nothing written, nothing stored, not aborted. -/
def newContext (req : Request) : Context :=
  { request := req, status := 200, body := none, setCookies := [], keys := [], aborted := false }

/-- Gin `c.Cookie(name)`: the value of the first cookie of that name; `none` is a non-nil error. -/
def Context.Cookie (c : Context) (name : String) : Option String :=
  (c.request.cookies.find? (fun e => e.1 == name)).map (fun e => e.2)

/-- Gin `c.JSON(code, obj)`. -/
def Context.JSON (c : Context) (code : Nat) (obj : H) : Context :=
  { c with status := code, body := some obj }

/-- Gin `c.Abort()`. -/
def Context.Abort (c : Context) : Context :=
  { c with aborted := true }

/-- Gin `c.AbortWithStatusJSON(code, obj)`. -/
def Context.AbortWithStatusJSON (c : Context) (code : Nat) (obj : H) : Context :=
  c.Abort.JSON code obj

/-- Gin `c.SetCookie(name, value, maxAge, path, domain, secure, httpOnly)`. -/
def Context.SetCookie (c : Context) (name value : String) (maxAge : Int)
    (path domain : String) (secure httpOnly : Bool) : Context :=
  { c with setCookies := c.setCookies ++
      [{ name := name, value := value, maxAge := maxAge, path := path, domain := domain,
         secure := secure, httpOnly := httpOnly }] }

/-- Gin `c.Set(key, value)` for an `int64` value. -/
def Context.Set (c : Context) (key : String) (value : Int) : Context :=
  { c with keys := mapAssign c.keys key value }

/-- Gin `c.GetInt64(key)`: the stored value, or 0 when the key is not set. -/
def Context.GetInt64 (c : Context) (key : String) : Int :=
  (mapIndex c.keys key).1

/-- Gin `c.BindJSON(&request)`: on failure gin aborts the context with status 400 and returns the
error; on success it returns the bound `Username`. -/
def Context.BindJSON (c : Context) : Option String × Context :=
  match c.request.username with
  | none => (none, { c.Abort with status := 400 })
  | some u => (some u, c)

/-! ## Handlers -/

/-- Source `localLoginHandler`. -/
def localLoginHandler (c : Context) (db : DB) (now : Int) (loggedInUsers : GoMap) :
    Context × DB × GoMap :=
  match c.BindJSON with
  | (none, c) => (c.JSON 400 [("error", "Invalid request body")], db, loggedInUsers)
  | (some username, c) =>
    if username = "" then
      (c.JSON 400 [("error", "Username cannot be empty")], db, loggedInUsers)
    else
      let finish := fun (db : DB) (userID : Int) =>
        let sessionToken := generateSessionToken username now
        let loggedInUsers := storeSession loggedInUsers sessionToken userID
        let c := c.SetCookie "session_token" sessionToken 3600 "/" "" false true
        (c.JSON 200 [("message", "Local login successful")], db, loggedInUsers)
      match getUserByUsername db username with
      | ((_, some _), db) => (c.JSON 500 [("error", "Database error")], db, loggedInUsers)
      | ((none, none), db) =>
        match createUser db username with
        | ((_, some _), db) =>
          (c.JSON 500 [("error", "Failed to create user")], db, loggedInUsers)
        | ((newID, none), db) => finish db newID
      | ((some user, none), db) => finish db user.ID

/-- Source `localLogoutHandler`. -/
def localLogoutHandler (c : Context) (loggedInUsers : GoMap) : Context × GoMap :=
  match c.Cookie "session_token" with
  | none => (c.JSON 401 [("error", "Not logged in")], loggedInUsers)
  | some sessionToken =>
    let loggedInUsers := invalidateSession loggedInUsers sessionToken
    let c := c.SetCookie "session_token" "" (-1) "/" "" false true
    (c.JSON 200 [("message", "Logged out")], loggedInUsers)

/-- A handler of a chain: it transforms the context and the session map. -/
abbrev HandlerFunc := Context → GoMap → Context × GoMap

/-- Source `sessionAuthMiddleware`; `next` is the rest of the chain, run by `c.Next()`. The
argument `db` is not used by the source either. -/
def sessionAuthMiddleware (_db : DB) (next : HandlerFunc) : HandlerFunc :=
  fun c loggedInUsers =>
    match c.Cookie "session_token" with
    | none => (c.AbortWithStatusJSON 401 [("error", "Not authenticated")], loggedInUsers)
    | some sessionToken =>
      match getSessionUserID loggedInUsers sessionToken with
      | (_, false) =>
        (c.AbortWithStatusJSON 401 [("error", "Invalid session")], loggedInUsers)
      | (userID, true) => next (c.Set "user_id" userID) loggedInUsers

/-- The handler registered in `main` behind the middleware on `GET /protected`. -/
def protectedHandler : HandlerFunc :=
  fun c loggedInUsers =>
    let userID := c.GetInt64 "user_id"
    (c.JSON 200 [("message", "Protected data for user ID: " ++ fmtD userID)], loggedInUsers)

/-- Route `GET /protected` of `main`: the middleware, then the handler. -/
def getProtected (db : DB) (req : Request) (loggedInUsers : GoMap) : Context × GoMap :=
  sessionAuthMiddleware db protectedHandler (newContext req) loggedInUsers

/-- Route `POST /auth/local/login` of `main`. -/
def postLogin (db : DB) (now : Int) (req : Request) (loggedInUsers : GoMap) :
    Context × DB × GoMap :=
  localLoginHandler (newContext req) db now loggedInUsers

/-- Route `POST /auth/local/logout` of `main`. -/
def postLogout (req : Request) (loggedInUsers : GoMap) : Context × GoMap :=
  localLogoutHandler (newContext req) loggedInUsers

/-- The routes registered in `main`: `POST /auth/local/login`, `POST /auth/local/logout` and
`GET /protected`. -/
inductive Route where
  | login
  | logout
  | protectedData
deriving DecidableEq, Repr

/-- One request served by the router of `main`: the handlers of the route run on a fresh
context; `now` is the clock reading in case the login handler issues a token. -/
def serve (r : Route) (req : Request) (now : Int) (db : DB) (loggedInUsers : GoMap) :
    Context × DB × GoMap :=
  match r with
  | Route.login => postLogin db now req loggedInUsers
  | Route.logout =>
    ((postLogout req loggedInUsers).1, db, (postLogout req loggedInUsers).2)
  | Route.protectedData =>
    ((getProtected db req loggedInUsers).1, db, (getProtected db req loggedInUsers).2)

/-- Requests served one after the other, each on the state the previous one left. -/
def serveAll : List (Route × Request × Int) → DB → GoMap → DB × GoMap
  | [], db, loggedInUsers => (db, loggedInUsers)
  | (r, req, now) :: rest, db, loggedInUsers =>
    serveAll rest (serve r req now db loggedInUsers).2.1 (serve r req now db loggedInUsers).2.2

/-! ## Sample data -/

/-- A table with two users. -/
def sampleDB : DB :=
  { gym_users := [{ ID := 7, Username := "ann", CreatedAt := 100, Role := "user" },
                  { ID := 9, Username := "bob", CreatedAt := 200, Role := "admin" }]
    nextID := 10, clock := 300, selectFault := none, insertFault := none, received := [] }

/-- A login request for `u`. -/
def loginRequest (u : String) : Request :=
  { cookies := [], username := some u }

/-- A request carrying the cookie `session_token = t`. -/
def cookieRequest (t : String) : Request :=
  { cookies := [("session_token", t)], username := none }


/-! ## Go map facts -/

theorem mapIndex_nil (k : String) : mapIndex [] k = (0, false) := rfl

theorem mapIndex_cons (e : String × Int) (m : GoMap) (k : String) :
    mapIndex (e :: m) k = if e.1 = k then (e.2, true) else mapIndex m k := by
  by_cases hk : e.1 = k
  · have hb : (e.1 == k) = true := by simpa using hk
    simp [mapIndex, List.find?_cons_of_pos, hb, hk]
  · have hb : ¬ (e.1 == k) = true := by simpa using hk
    simp [mapIndex, List.find?_cons_of_neg, hb, hk]

theorem mapDelete_nil (k : String) : mapDelete [] k = [] := rfl

theorem mapDelete_cons (e : String × Int) (m : GoMap) (k : String) :
    mapDelete (e :: m) k = if e.1 = k then mapDelete m k else e :: mapDelete m k := by
  by_cases hk : e.1 = k <;> simp [mapDelete, List.filter_cons, hk]

theorem mapIndex_mapDelete_self (m : GoMap) (k : String) :
    mapIndex (mapDelete m k) k = (0, false) := by
  induction m with
  | nil => rfl
  | cons e m ih =>
    by_cases hk : e.1 = k
    · simp [mapDelete_cons, hk, ih]
    · simp [mapDelete_cons, mapIndex_cons, hk, ih]

theorem mapIndex_mapDelete_ne (m : GoMap) (k k' : String) (h : k' ≠ k) :
    mapIndex (mapDelete m k) k' = mapIndex m k' := by
  induction m with
  | nil => rfl
  | cons e m ih =>
    by_cases hk : e.1 = k
    · have hk' : ¬ e.1 = k' := fun h' => h (h'.symm.trans hk)
      rw [mapDelete_cons, if_pos hk, mapIndex_cons, if_neg hk', ih]
    · by_cases hk' : e.1 = k'
      · rw [mapDelete_cons, if_neg hk, mapIndex_cons, if_pos hk', mapIndex_cons, if_pos hk']
      · rw [mapDelete_cons, if_neg hk, mapIndex_cons, if_neg hk', mapIndex_cons, if_neg hk', ih]

theorem mapIndex_mapAssign_self (m : GoMap) (k : String) (v : Int) :
    mapIndex (mapAssign m k v) k = (v, true) := by
  simp [mapAssign, mapIndex_cons]

theorem mapIndex_mapAssign_ne (m : GoMap) (k k' : String) (v : Int) (h : k' ≠ k) :
    mapIndex (mapAssign m k v) k' = mapIndex m k' := by
  have hk : ¬ k = k' := fun h' => h h'.symm
  simp [mapAssign, mapIndex_cons, hk, mapIndex_mapDelete_ne m k k' h]

theorem mapIndex_found_iff (m : GoMap) (k : String) :
    (mapIndex m k).2 = true ↔ k ∈ m.map Prod.fst := by
  induction m with
  | nil => simp [mapIndex_nil]
  | cons e m ih =>
    by_cases hk : e.1 = k
    · simp [mapIndex_cons, hk]
    · have hk2 : ¬ k = e.1 := fun h => hk h.symm
      rw [mapIndex_cons, if_neg hk, ih]
      simp [hk2]

theorem mapIndex_not_found (m : GoMap) (k : String) (h : (mapIndex m k).2 = false) :
    mapIndex m k = (0, false) := by
  induction m with
  | nil => rfl
  | cons e m ih =>
    by_cases hk : e.1 = k
    · simp [mapIndex_cons, hk] at h
    · rw [mapIndex_cons, if_neg hk] at h ⊢
      exact ih h

/-! ## Decimal digits -/

theorem toDigitsCore_acc (fuel : Nat) : ∀ (n : Nat) (ds : List Char),
    Nat.toDigitsCore 10 fuel n ds = Nat.toDigitsCore 10 fuel n [] ++ ds := by
  induction fuel with
  | zero => intro n ds; simp [Nat.toDigitsCore]
  | succ fuel ih =>
    intro n ds
    simp only [Nat.toDigitsCore]
    by_cases h : n / 10 = 0
    · simp [h]
    · rw [if_neg h, if_neg h, ih (n / 10) (Nat.digitChar (n % 10) :: ds),
        ih (n / 10) [Nat.digitChar (n % 10)]]
      simp

theorem toDigitsCore_fuel (f1 : Nat) : ∀ (f2 n : Nat), n < f1 → n < f2 →
    Nat.toDigitsCore 10 f1 n [] = Nat.toDigitsCore 10 f2 n [] := by
  induction f1 with
  | zero => intro f2 n h1; omega
  | succ f1 ih =>
    intro f2 n h1 h2
    cases f2 with
    | zero => omega
    | succ f2 =>
      simp only [Nat.toDigitsCore]
      by_cases h : n / 10 = 0
      · simp [h]
      · rw [if_neg h, if_neg h, toDigitsCore_acc f1, toDigitsCore_acc f2,
          ih f2 (n / 10) (by omega) (by omega)]

theorem toDigits_small (n : Nat) (h : n < 10) : Nat.toDigits 10 n = [Nat.digitChar n] := by
  have h0 : n / 10 = 0 := by omega
  have h1 : n % 10 = n := by omega
  simp [Nat.toDigits, Nat.toDigitsCore, h0, h1]

theorem toDigits_step (n : Nat) (h : 10 ≤ n) :
    Nat.toDigits 10 n = Nat.toDigits 10 (n / 10) ++ [Nat.digitChar (n % 10)] := by
  have h0 : ¬ n / 10 = 0 := by omega
  have e1 : Nat.toDigits 10 n =
      if n / 10 = 0 then [Nat.digitChar (n % 10)]
      else Nat.toDigitsCore 10 n (n / 10) [Nat.digitChar (n % 10)] := rfl
  have e2 : Nat.toDigits 10 (n / 10) = Nat.toDigitsCore 10 (n / 10 + 1) (n / 10) [] := rfl
  rw [e1, e2, if_neg h0, toDigitsCore_acc n,
    toDigitsCore_fuel n (n / 10 + 1) (n / 10) (by omega) (by omega)]

theorem toDigits_ne_nil (n : Nat) : Nat.toDigits 10 n ≠ [] := by
  by_cases h : n < 10
  · simp [toDigits_small n h]
  · simp [toDigits_step n (by omega)]

theorem digitChar_inj (a b : Nat) (ha : a < 10) (hb : b < 10)
    (h : Nat.digitChar a = Nat.digitChar b) : a = b := by
  interval_cases a <;> interval_cases b <;> first | rfl | (exact absurd h (by decide))

theorem toDigits_inj : ∀ (a b : Nat), Nat.toDigits 10 a = Nat.toDigits 10 b → a = b := by
  intro a
  induction a using Nat.strong_induction_on with
  | _ a ih =>
    intro b hab
    by_cases ha : a < 10
    · by_cases hb : b < 10
      · rw [toDigits_small a ha, toDigits_small b hb] at hab
        exact digitChar_inj a b ha hb (List.cons.inj hab).1
      · rw [toDigits_small a ha, toDigits_step b (by omega)] at hab
        have hl := congrArg List.length hab
        have hne := toDigits_ne_nil (b / 10)
        have : (Nat.toDigits 10 (b / 10)).length ≠ 0 := by
          simpa [List.length_eq_zero] using hne
        simp only [List.length_append, List.length_cons, List.length_nil] at hl
        omega
    · by_cases hb : b < 10
      · rw [toDigits_step a (by omega), toDigits_small b hb] at hab
        have hl := congrArg List.length hab
        have hne := toDigits_ne_nil (a / 10)
        have : (Nat.toDigits 10 (a / 10)).length ≠ 0 := by
          simpa [List.length_eq_zero] using hne
        simp only [List.length_append, List.length_cons, List.length_nil] at hl
        omega
      · rw [toDigits_step a (by omega), toDigits_step b (by omega)] at hab
        have hsplit := List.append_inj' hab rfl
        have hq : a / 10 = b / 10 := ih (a / 10) (by omega) (b / 10) hsplit.1
        have hr : a % 10 = b % 10 :=
          digitChar_inj _ _ (Nat.mod_lt _ (by decide)) (Nat.mod_lt _ (by decide))
            (List.cons.inj hsplit.2).1
        omega

theorem toDigits_mem (n : Nat) : ∀ c ∈ Nat.toDigits 10 n, ∃ k, k < 10 ∧ c = Nat.digitChar k := by
  induction n using Nat.strong_induction_on with
  | _ n ih =>
    intro c hc
    by_cases h : n < 10
    · rw [toDigits_small n h] at hc
      exact ⟨n, h, by simpa using hc⟩
    · rw [toDigits_step n (by omega)] at hc
      rcases List.mem_append.mp hc with hc | hc
      · exact ih (n / 10) (by omega) c hc
      · exact ⟨n % 10, Nat.mod_lt _ (by decide), by simpa using hc⟩

theorem digitChar_ne (k : Nat) (hk : k < 10) :
    Nat.digitChar k ≠ '_' ∧ Nat.digitChar k ≠ '-' := by
  interval_cases k <;> decide

theorem fmtD_data_no_underscore (n : Int) : '_' ∉ (fmtD n).data := by
  intro hmem
  cases n with
  | ofNat m =>
    obtain ⟨k, hk, hc⟩ := toDigits_mem m _ hmem
    exact (digitChar_ne k hk).1 hc.symm
  | negSucc m =>
    simp only [fmtD, List.mem_cons] at hmem
    rcases hmem with h | h
    · exact absurd h (by decide)
    · obtain ⟨k, hk, hc⟩ := toDigits_mem (m + 1) _ h
      exact (digitChar_ne k hk).1 hc.symm

theorem fmtD_injective (a b : Int) (h : fmtD a = fmtD b) : a = b := by
  have hd : (fmtD a).data = (fmtD b).data := congrArg String.data h
  cases a with
  | ofNat m =>
    cases b with
    | ofNat k =>
      simp only [fmtD] at hd
      rw [toDigits_inj m k hd]
    | negSucc k =>
      exfalso
      simp only [fmtD] at hd
      have hmem : '-' ∈ Nat.toDigits 10 m := by rw [hd]; exact List.mem_cons_self _ _
      obtain ⟨j, hj, hc⟩ := toDigits_mem m _ hmem
      exact (digitChar_ne j hj).2 hc.symm
  | negSucc m =>
    cases b with
    | ofNat k =>
      exfalso
      simp only [fmtD] at hd
      have hmem : '-' ∈ Nat.toDigits 10 k := by rw [← hd]; exact List.mem_cons_self _ _
      obtain ⟨j, hj, hc⟩ := toDigits_mem k _ hmem
      exact (digitChar_ne j hj).2 hc.symm
    | negSucc k =>
      simp only [fmtD] at hd
      have := toDigits_inj (m + 1) (k + 1) (List.cons.inj hd).2
      have hmk : m = k := by omega
      rw [hmk]

/-- Splitting at the last underscore: when neither tail holds an underscore, equal
concatenations have equal parts. -/
theorem split_last_underscore (u1 u2 d1 d2 : List Char) (h1 : '_' ∉ d1) (h2 : '_' ∉ d2)
    (h : u1 ++ '_' :: d1 = u2 ++ '_' :: d2) : u1 = u2 ∧ d1 = d2 := by
  induction u1 generalizing u2 with
  | nil =>
    cases u2 with
    | nil => exact ⟨rfl, by simpa using h⟩
    | cons c u2 =>
      exfalso
      simp only [List.nil_append, List.cons_append, List.cons.injEq] at h
      apply h1
      rw [h.2]
      simp
  | cons a u1 ih =>
    cases u2 with
    | nil =>
      exfalso
      simp only [List.nil_append, List.cons_append, List.cons.injEq] at h
      apply h2
      rw [← h.2]
      simp
    | cons c u2 =>
      simp only [List.cons_append, List.cons.injEq] at h
      obtain ⟨hu, hd⟩ := ih u2 h.2
      exact ⟨by rw [h.1, hu], hd⟩

theorem generateSessionToken_inj (u1 u2 : String) (n1 n2 : Int)
    (h : generateSessionToken u1 n1 = generateSessionToken u2 n2) : u1 = u2 ∧ n1 = n2 := by
  have hd := congrArg String.data h
  simp only [generateSessionToken, String.data_append, List.append_assoc] at hd
  have hd2 := List.append_cancel_left hd
  have hsplit := split_last_underscore u1.data u2.data (fmtD n1).data (fmtD n2).data
    (fmtD_data_no_underscore n1) (fmtD_data_no_underscore n2) (by simpa using hd2)
  exact ⟨String.ext hsplit.1, fmtD_injective n1 n2 (String.ext hsplit.2)⟩

/-! ## The database functions, case by case -/

theorem getUserByUsername_db (db : DB) (u : String) :
    (getUserByUsername db u).2 =
      { db with received := db.received ++ [Statement.selectByName u] } := by
  unfold getUserByUsername DB.queryRowSelect
  cases db.selectFault with
  | some msg => simp
  | none =>
    cases db.gym_users.find? (fun r => r.Username == u) with
    | none => simp
    | some r => simp

theorem getUserByUsername_fault (db : DB) (u msg : String) (h : db.selectFault = some msg) :
    (getUserByUsername db u).1 = (none, some (SqlError.driver msg)) := by
  simp [getUserByUsername, DB.queryRowSelect, h]

theorem getUserByUsername_result (db : DB) (u : String) (h : db.selectFault = none) :
    (getUserByUsername db u).1 = (db.gym_users.find? (fun r => r.Username == u), none) := by
  unfold getUserByUsername DB.queryRowSelect
  rw [h]
  cases db.gym_users.find? (fun r => r.Username == u) with
  | none => simp
  | some r => simp

theorem getUserByUsername_err_iff (db : DB) (u : String) :
    (getUserByUsername db u).1.2 = none ↔ db.selectFault = none := by
  cases h : db.selectFault with
  | none => simp [getUserByUsername_result db u h]
  | some msg => simp [getUserByUsername_fault db u msg h]

theorem getUserByUsername_user_none_of_err (db : DB) (u : String) (e : SqlError)
    (h : (getUserByUsername db u).1.2 = some e) : (getUserByUsername db u).1.1 = none := by
  cases hf : db.selectFault with
  | none => rw [getUserByUsername_result db u hf] at h; simp at h
  | some msg => rw [getUserByUsername_fault db u msg hf]

theorem createUser_fault (db : DB) (u msg : String) (h : db.insertFault = some msg) :
    createUser db u = ((0, some (SqlError.driver msg)),
      { db with received := db.received ++ [Statement.insertUser u "user"] }) := by
  simp [createUser, DB.queryRowInsert, h]

theorem createUser_ok (db : DB) (u : String) (h : db.insertFault = none) :
    createUser db u = ((db.nextID, none),
      { db with
        received := db.received ++ [Statement.insertUser u "user"]
        gym_users := db.gym_users ++
          [{ ID := db.nextID, Username := u, CreatedAt := db.clock, Role := "user" }]
        nextID := db.nextID + 1 }) := by
  simp [createUser, DB.queryRowInsert, h]

theorem createUser_err_iff (db : DB) (u : String) :
    (createUser db u).1.2 = none ↔ db.insertFault = none := by
  cases h : db.insertFault with
  | none => simp [createUser_ok db u h]
  | some msg => simp [createUser_fault db u msg h]

/-! ## The login handler, path by path -/

theorem login_unbound (c : Context) (db : DB) (now : Int) (s : GoMap)
    (hb : c.request.username = none) :
    localLoginHandler c db now s =
      (({ c.Abort with status := 400 } : Context).JSON 400 [("error", "Invalid request body")],
        db, s) := by
  simp [localLoginHandler, Context.BindJSON, hb]

theorem login_empty (c : Context) (db : DB) (now : Int) (s : GoMap)
    (hb : c.request.username = some "") :
    localLoginHandler c db now s =
      (c.JSON 400 [("error", "Username cannot be empty")], db, s) := by
  simp [localLoginHandler, Context.BindJSON, hb]

theorem login_lookup_error (c : Context) (db : DB) (now : Int) (s : GoMap) (u : String)
    (e : SqlError) (hb : c.request.username = some u) (hu : u ≠ "")
    (he : (getUserByUsername db u).1.2 = some e) :
    localLoginHandler c db now s =
      (c.JSON 500 [("error", "Database error")], (getUserByUsername db u).2, s) := by
  rcases hg : getUserByUsername db u with ⟨⟨user, err⟩, db1⟩
  rw [hg] at he
  simp only at he
  subst he
  simp [localLoginHandler, Context.BindJSON, hb, hu, hg]

theorem login_create_error (c : Context) (db : DB) (now : Int) (s : GoMap) (u : String)
    (e : SqlError) (hb : c.request.username = some u) (hu : u ≠ "")
    (hg : (getUserByUsername db u).1 = (none, none))
    (he : (createUser (getUserByUsername db u).2 u).1.2 = some e) :
    localLoginHandler c db now s =
      (c.JSON 500 [("error", "Failed to create user")],
        (createUser (getUserByUsername db u).2 u).2, s) := by
  rcases hg1 : getUserByUsername db u with ⟨⟨user, err⟩, db1⟩
  rw [hg1] at hg he
  simp only [Prod.mk.injEq] at hg
  obtain ⟨rfl, rfl⟩ := hg
  rcases hc : createUser db1 u with ⟨⟨newID, err⟩, db2⟩
  rw [hc] at he
  simp only at he
  subst he
  simp [localLoginHandler, Context.BindJSON, hb, hu, hg1, hc]

theorem login_created (c : Context) (db : DB) (now : Int) (s : GoMap) (u : String)
    (hb : c.request.username = some u) (hu : u ≠ "")
    (hg : (getUserByUsername db u).1 = (none, none))
    (he : (createUser (getUserByUsername db u).2 u).1.2 = none) :
    localLoginHandler c db now s =
      ((c.SetCookie "session_token" (generateSessionToken u now) 3600 "/" "" false true).JSON
          200 [("message", "Local login successful")],
        (createUser (getUserByUsername db u).2 u).2,
        storeSession s (generateSessionToken u now)
          (createUser (getUserByUsername db u).2 u).1.1) := by
  rcases hg1 : getUserByUsername db u with ⟨⟨user, err⟩, db1⟩
  rw [hg1] at hg he
  simp only [Prod.mk.injEq] at hg
  obtain ⟨rfl, rfl⟩ := hg
  rcases hc : createUser db1 u with ⟨⟨newID, err⟩, db2⟩
  rw [hc] at he
  simp only at he
  subst he
  simp [localLoginHandler, Context.BindJSON, hb, hu, hg1, hc]

theorem login_found (c : Context) (db : DB) (now : Int) (s : GoMap) (u : String) (user : User)
    (hb : c.request.username = some u) (hu : u ≠ "")
    (hg : (getUserByUsername db u).1 = (some user, none)) :
    localLoginHandler c db now s =
      ((c.SetCookie "session_token" (generateSessionToken u now) 3600 "/" "" false true).JSON
          200 [("message", "Local login successful")],
        (getUserByUsername db u).2,
        storeSession s (generateSessionToken u now) user.ID) := by
  rcases hg1 : getUserByUsername db u with ⟨⟨user1, err⟩, db1⟩
  rw [hg1] at hg
  simp only [Prod.mk.injEq] at hg
  obtain ⟨rfl, rfl⟩ := hg
  simp [localLoginHandler, Context.BindJSON, hb, hu, hg1]

/-! ## The auth gate, path by path -/

theorem gate_no_cookie (db : DB) (next : HandlerFunc) (c : Context) (s : GoMap)
    (h : c.Cookie "session_token" = none) :
    sessionAuthMiddleware db next c s =
      (c.AbortWithStatusJSON 401 [("error", "Not authenticated")], s) := by
  simp [sessionAuthMiddleware, h]

theorem gate_unknown (db : DB) (next : HandlerFunc) (c : Context) (s : GoMap) (t : String)
    (h : c.Cookie "session_token" = some t) (hs : (getSessionUserID s t).2 = false) :
    sessionAuthMiddleware db next c s =
      (c.AbortWithStatusJSON 401 [("error", "Invalid session")], s) := by
  rcases hg : getSessionUserID s t with ⟨id, ok⟩
  rw [hg] at hs
  simp only at hs
  subst hs
  simp [sessionAuthMiddleware, h, hg]

theorem gate_accept (db : DB) (next : HandlerFunc) (c : Context) (s : GoMap) (t : String)
    (id : Int) (h : c.Cookie "session_token" = some t) (hs : getSessionUserID s t = (id, true)) :
    sessionAuthMiddleware db next c s = next (c.Set "user_id" id) s := by
  simp [sessionAuthMiddleware, h, hs]

theorem getInt64_set (c : Context) (key : String) (v : Int) :
    (c.Set key v).GetInt64 key = v := by
  simp [Context.Set, Context.GetInt64, mapIndex_mapAssign_self]

theorem getSessionUserID_cases (s : GoMap) (t : String) :
    (t ∉ s.map Prod.fst ∧ getSessionUserID s t = (0, false)) ∨
      (t ∈ s.map Prod.fst ∧ ∃ id, getSessionUserID s t = (id, true)) := by
  unfold getSessionUserID
  cases hb : (mapIndex s t).2 with
  | false =>
    left
    refine ⟨fun hm => ?_, mapIndex_not_found s t hb⟩
    rw [(mapIndex_found_iff s t).mpr hm] at hb
    exact Bool.noConfusion hb
  | true =>
    right
    exact ⟨(mapIndex_found_iff s t).mp hb, (mapIndex s t).1, by rw [← hb]⟩

theorem gate_reject_of (db : DB) (c : Context) (s : GoMap)
    (h : c.Cookie "session_token" = none ∨
      ∃ t, c.Cookie "session_token" = some t ∧ t ∉ s.map Prod.fst) :
    ∃ msg, ∀ next : HandlerFunc,
      sessionAuthMiddleware db next c s = (c.AbortWithStatusJSON 401 [("error", msg)], s) := by
  rcases h with hc | ⟨t, hc, hnot⟩
  · exact ⟨"Not authenticated", fun next => gate_no_cookie db next c s hc⟩
  · rcases getSessionUserID_cases s t with ⟨_, hget⟩ | ⟨hmem, _⟩
    · exact ⟨"Invalid session", fun next => gate_unknown db next c s t hc (by rw [hget])⟩
    · exact absurd hmem hnot

theorem gate_valid_of_not (c : Context) (s : GoMap)
    (h : ¬ (c.Cookie "session_token" = none ∨
      ∃ t, c.Cookie "session_token" = some t ∧ t ∉ s.map Prod.fst)) :
    ∃ t id, c.Cookie "session_token" = some t ∧ getSessionUserID s t = (id, true) := by
  cases hc : c.Cookie "session_token" with
  | none => exact absurd (Or.inl hc) h
  | some t =>
    rcases getSessionUserID_cases s t with ⟨hnot, _⟩ | ⟨_, id, hget⟩
    · exact absurd (Or.inr ⟨t, hc, hnot⟩) h
    · exact ⟨t, id, rfl, hget⟩

theorem getProtected_status (db : DB) (req : Request) (s : GoMap) :
    ((getProtected db req s).1.status = 401 ↔
        ((newContext req).Cookie "session_token" = none ∨
          ∃ t, (newContext req).Cookie "session_token" = some t ∧ t ∉ s.map Prod.fst)) ∧
      ((getProtected db req s).1.status = 200 ↔
        ¬ ((newContext req).Cookie "session_token" = none ∨
          ∃ t, (newContext req).Cookie "session_token" = some t ∧ t ∉ s.map Prod.fst)) := by
  by_cases hcond : (newContext req).Cookie "session_token" = none ∨
      ∃ t, (newContext req).Cookie "session_token" = some t ∧ t ∉ s.map Prod.fst
  · obtain ⟨msg, hmsg⟩ := gate_reject_of db (newContext req) s hcond
    unfold getProtected
    rw [hmsg protectedHandler]
    exact ⟨⟨fun _ => hcond, fun _ => rfl⟩,
      ⟨fun h => absurd (show (401 : Nat) = 200 from h) (by decide), fun h => absurd hcond h⟩⟩
  · obtain ⟨t, id, hc, hget⟩ := gate_valid_of_not (newContext req) s hcond
    unfold getProtected
    rw [gate_accept db protectedHandler (newContext req) s t id hc hget]
    exact ⟨⟨fun h => absurd (show (200 : Nat) = 401 from h) (by decide),
        fun h => absurd h hcond⟩,
      ⟨fun _ => hcond, fun _ => rfl⟩⟩

theorem getUserByUsername_found (db : DB) (u : String)
    (hrow : ∃ r ∈ db.gym_users, r.Username = u)
    (hlookup : (getUserByUsername db u).1.2 = none) :
    ∃ user, (getUserByUsername db u).1 = (some user, none) ∧ user ∈ db.gym_users ∧
      user.Username = u := by
  have hf := (getUserByUsername_err_iff db u).mp hlookup
  have hres := getUserByUsername_result db u hf
  cases hfind : db.gym_users.find? (fun r => r.Username == u) with
  | none =>
    obtain ⟨r, hr, hru⟩ := hrow
    have := List.find?_eq_none.mp hfind r hr
    simp [hru] at this
  | some user =>
    rw [hfind] at hres
    refine ⟨user, hres, List.mem_of_find?_eq_some hfind, ?_⟩
    have := List.find?_some hfind
    simpa using this

theorem getUserByUsername_absent (db : DB) (u : String)
    (hnew : ∀ r ∈ db.gym_users, r.Username ≠ u)
    (hlookup : (getUserByUsername db u).1.2 = none) :
    (getUserByUsername db u).1 = (none, none) := by
  have hf := (getUserByUsername_err_iff db u).mp hlookup
  have hres := getUserByUsername_result db u hf
  have hfind : db.gym_users.find? (fun r => r.Username == u) = none := by
    rw [List.find?_eq_none]
    intro r hr
    simpa using hnew r hr
  rw [hfind] at hres
  exact hres

theorem getUserByUsername_noRows (db : DB) (u : String)
    (h : (db.queryRowSelect u).1 = Except.error SqlError.ErrNoRows) :
    (getUserByUsername db u).1 = (none, none) := by
  unfold getUserByUsername
  rcases hq : db.queryRowSelect u with ⟨r, db1⟩
  rw [hq] at h
  simp only at h
  subst h
  simp

theorem login_store_of_other (c : Context) (db : DB) (now : Int) (s : GoMap) (u t : String)
    (hb : c.request.username = some u) (ht : t ≠ generateSessionToken u now) :
    getSessionUserID (localLoginHandler c db now s).2.2 t = getSessionUserID s t := by
  by_cases hu : u = ""
  · subst hu
    rw [login_empty c db now s hb]
  · cases herr : (getUserByUsername db u).1.2 with
    | some e => rw [login_lookup_error c db now s u e hb hu herr]
    | none =>
      cases huser : (getUserByUsername db u).1.1 with
      | some user =>
        have hg : (getUserByUsername db u).1 = (some user, none) := by
          rw [← huser, ← herr]
        rw [login_found c db now s u user hb hu hg]
        exact mapIndex_mapAssign_ne s _ t _ ht
      | none =>
        have hg : (getUserByUsername db u).1 = (none, none) := by
          rw [← huser, ← herr]
        cases hce : (createUser (getUserByUsername db u).2 u).1.2 with
        | some e => rw [login_create_error c db now s u e hb hu hg hce]
        | none =>
          rw [login_created c db now s u hb hu hg hce]
          exact mapIndex_mapAssign_ne s _ t _ ht

theorem gate_store (db : DB) (next : HandlerFunc) (c : Context) (s : GoMap) :
    (∃ msg, sessionAuthMiddleware db next c s =
        (c.AbortWithStatusJSON 401 [("error", msg)], s)) ∨
      ∃ c2, sessionAuthMiddleware db next c s = next c2 s := by
  cases hc : c.Cookie "session_token" with
  | none => exact Or.inl ⟨_, gate_no_cookie db next c s hc⟩
  | some t =>
    rcases getSessionUserID_cases s t with ⟨_, hget⟩ | ⟨_, id, hget⟩
    · exact Or.inl ⟨_, gate_unknown db next c s t hc (by rw [hget])⟩
    · exact Or.inr ⟨_, gate_accept db next c s t id hc hget⟩

theorem getProtected_store (db : DB) (req : Request) (s : GoMap) :
    (getProtected db req s).2 = s := by
  unfold getProtected
  rcases gate_store db protectedHandler (newContext req) s with ⟨msg, h⟩ | ⟨c2, h⟩
  · rw [h]
  · rw [h]; rfl

theorem logout_lookup_other (c : Context) (s : GoMap) (t' : String)
    (h : c.Cookie "session_token" ≠ some t') :
    getSessionUserID (localLogoutHandler c s).2 t' = getSessionUserID s t' := by
  cases hc : c.Cookie "session_token" with
  | none => simp [localLogoutHandler, hc]
  | some t =>
    have hne : t' ≠ t := fun e => h (by rw [hc, e])
    have hs : (localLogoutHandler c s).2 = invalidateSession s t := by
      simp [localLogoutHandler, hc]
    rw [hs]
    exact mapIndex_mapDelete_ne s t t' hne

theorem serveAll_lookup (t' : String) (reqs : List (Route × Request × Int)) :
    ∀ (db : DB) (s : GoMap),
      (∀ e ∈ reqs, e.1 = Route.protectedData ∨
        (e.1 = Route.logout ∧ (newContext e.2.1).Cookie "session_token" ≠ some t')) →
      getSessionUserID (serveAll reqs db s).2 t' = getSessionUserID s t' := by
  induction reqs with
  | nil => intro db s _; rfl
  | cons e rest ih =>
    intro db s h
    obtain ⟨r, req, now⟩ := e
    have hrest : ∀ e ∈ rest, e.1 = Route.protectedData ∨
        (e.1 = Route.logout ∧ (newContext e.2.1).Cookie "session_token" ≠ some t') :=
      fun e he => h e (List.mem_cons_of_mem _ he)
    have hstep : getSessionUserID (serve r req now db s).2.2 t' = getSessionUserID s t' := by
      rcases h (r, req, now) (List.mem_cons_self _ _) with hr | ⟨hr, hc⟩
      · simp only at hr
        subst hr
        simp only [serve]
        rw [getProtected_store]
      · simp only at hr hc
        subst hr
        simp only [serve, postLogout]
        exact logout_lookup_other (newContext req) s t' hc
    simp only [serveAll]
    rw [ih _ _ hrest, hstep]

/-! ## Claims -/

/-- C4: a login whose body binds with the empty username is answered 400 before any
database call: the database (rows and received statements) and the session map come back
unchanged and no cookie is set. -/
theorem login_empty_username (c : Context) (db : DB) (now : Int) (s : GoMap)
    (hb : c.request.username = some "") :
    (localLoginHandler c db now s).1.status = 400 ∧
      (localLoginHandler c db now s).1.body = some [("error", "Username cannot be empty")] ∧
      (localLoginHandler c db now s).2.1 = db ∧
      (localLoginHandler c db now s).2.1.received = db.received ∧
      (localLoginHandler c db now s).2.1.gym_users = db.gym_users ∧
      (localLoginHandler c db now s).2.2 = s ∧
      (localLoginHandler c db now s).1.setCookies = c.setCookies := by
  rw [login_empty c db now s hb]
  simp [Context.JSON]

theorem login_empty_username_witness :
    (localLoginHandler (newContext (loginRequest "")) sampleDB 5 []).1.status = 400 ∧
      (localLoginHandler (newContext (loginRequest "")) sampleDB 5 []).1.body =
        some [("error", "Username cannot be empty")] ∧
      (localLoginHandler (newContext (loginRequest "")) sampleDB 5 []).2.1 = sampleDB ∧
      (localLoginHandler (newContext (loginRequest "")) sampleDB 5 []).2.1.received =
        sampleDB.received ∧
      (localLoginHandler (newContext (loginRequest "")) sampleDB 5 []).2.1.gym_users =
        sampleDB.gym_users ∧
      (localLoginHandler (newContext (loginRequest "")) sampleDB 5 []).2.2 = [] ∧
      (localLoginHandler (newContext (loginRequest "")) sampleDB 5 []).1.setCookies =
        (newContext (loginRequest "")).setCookies :=
  login_empty_username (newContext (loginRequest "")) sampleDB 5 [] rfl

/-- C7: the logout handler answers 401 exactly when the request has no `session_token`
cookie; with the cookie present it answers 200 with the message "Logged out", for every
session map, whether or not the cookie value is one of its keys. -/
theorem logout_status (c : Context) (s : GoMap) :
    ((localLogoutHandler c s).1.status = 401 ↔ c.Cookie "session_token" = none) ∧
      (∀ t, c.Cookie "session_token" = some t →
        (localLogoutHandler c s).1.status = 200 ∧
          (localLogoutHandler c s).1.body = some [("message", "Logged out")]) := by
  cases h : c.Cookie "session_token" with
  | none => simp [localLogoutHandler, h, Context.JSON]
  | some t => simp [localLogoutHandler, h, Context.JSON, Context.SetCookie]

theorem logout_status_witness :
    (localLogoutHandler (newContext (cookieRequest "stale")) [("local_session_ann_5", 7)]).1.status
        = 200 ∧
      (localLogoutHandler (newContext (cookieRequest "stale")) [("local_session_ann_5", 7)]).1.body
        = some [("message", "Logged out")] :=
  (logout_status (newContext (cookieRequest "stale")) [("local_session_ann_5", 7)]).2
    "stale" (by decide)

/-- C2: after the logout handler has handled a request whose `session_token` cookie is `t`,
`getSessionUserID t` on the resulting map reports not found, so the auth gate aborts every
request carrying the cookie `t` with status 401 and `GET /protected` answers 401; no
assumption is made on whether `t` was a key of the map before the logout. -/
theorem logout_then_rejected (c : Context) (s : GoMap) (t : String)
    (hc : c.Cookie "session_token" = some t) :
    getSessionUserID (localLogoutHandler c s).2 t = (0, false) ∧
      (∀ (db : DB) (next : HandlerFunc) (c2 : Context), c2.Cookie "session_token" = some t →
        sessionAuthMiddleware db next c2 (localLogoutHandler c s).2 =
            (c2.AbortWithStatusJSON 401 [("error", "Invalid session")],
              (localLogoutHandler c s).2) ∧
          (sessionAuthMiddleware db next c2 (localLogoutHandler c s).2).1.aborted = true ∧
          (sessionAuthMiddleware db next c2 (localLogoutHandler c s).2).1.status = 401) ∧
      (∀ (db : DB) (req : Request), (newContext req).Cookie "session_token" = some t →
        (getProtected db req (localLogoutHandler c s).2).1.status = 401) := by
  have hs : (localLogoutHandler c s).2 = invalidateSession s t := by
    simp [localLogoutHandler, hc]
  have hget : getSessionUserID (invalidateSession s t) t = (0, false) :=
    mapIndex_mapDelete_self s t
  rw [hs]
  refine ⟨hget, ?_, ?_⟩
  · intro db next c2 h2
    have hg := gate_unknown db next c2 (invalidateSession s t) t h2 (by rw [hget])
    rw [hg]
    exact ⟨rfl, rfl, rfl⟩
  · intro db req h2
    unfold getProtected
    rw [gate_unknown db protectedHandler (newContext req) (invalidateSession s t) t h2
      (by rw [hget])]
    rfl

theorem logout_then_rejected_witness :
    getSessionUserID (localLogoutHandler (newContext (cookieRequest "local_session_ann_5"))
        [("local_session_ann_5", 7)]).2 "local_session_ann_5" = (0, false) :=
  (logout_then_rejected (newContext (cookieRequest "local_session_ann_5"))
    [("local_session_ann_5", 7)] "local_session_ann_5" (by decide)).1

/-- C3: the auth gate aborts with status 401, whatever the downstream handler is (it is not
run), if and only if the request has no `session_token` cookie or the cookie value is not a
key of the session map; in every other case it stores under `user_id` the id the map holds for
the cookie value and hands the context to the downstream handler. On `GET /protected` this
gives 401 in the first case and 200 in the second. -/
theorem gate_decision (db : DB) (c : Context) (s : GoMap) :
    ((∀ next : HandlerFunc, (sessionAuthMiddleware db next c s).1.aborted = true ∧
          (sessionAuthMiddleware db next c s).1.status = 401) ↔
        (c.Cookie "session_token" = none ∨
          ∃ t, c.Cookie "session_token" = some t ∧ t ∉ s.map Prod.fst)) ∧
      ((c.Cookie "session_token" = none ∨
          ∃ t, c.Cookie "session_token" = some t ∧ t ∉ s.map Prod.fst) →
        ∃ msg, ∀ next : HandlerFunc,
          sessionAuthMiddleware db next c s = (c.AbortWithStatusJSON 401 [("error", msg)], s)) ∧
      (¬ (c.Cookie "session_token" = none ∨
          ∃ t, c.Cookie "session_token" = some t ∧ t ∉ s.map Prod.fst) →
        ∃ t id, c.Cookie "session_token" = some t ∧ getSessionUserID s t = (id, true) ∧
          (c.Set "user_id" id).GetInt64 "user_id" = id ∧
          ∀ next : HandlerFunc,
            sessionAuthMiddleware db next c s = next (c.Set "user_id" id) s) ∧
      (∀ req : Request,
        ((getProtected db req s).1.status = 401 ↔
          ((newContext req).Cookie "session_token" = none ∨
            ∃ t, (newContext req).Cookie "session_token" = some t ∧ t ∉ s.map Prod.fst)) ∧
        ((getProtected db req s).1.status = 200 ↔
          ¬ ((newContext req).Cookie "session_token" = none ∨
            ∃ t, (newContext req).Cookie "session_token" = some t ∧
              t ∉ s.map Prod.fst))) := by
  refine ⟨?_, ?_, ?_, fun req => getProtected_status db req s⟩
  · constructor
    · intro h
      by_contra hcond
      obtain ⟨t, id, hc, hget⟩ := gate_valid_of_not c s hcond
      have h1 := (h (fun c2 s2 => (c2.JSON 200 [], s2))).2
      rw [gate_accept db _ c s t id hc hget] at h1
      exact absurd (show (200 : Nat) = 401 from h1) (by decide)
    · intro hcond next
      obtain ⟨msg, hmsg⟩ := gate_reject_of db c s hcond
      rw [hmsg next]
      exact ⟨rfl, rfl⟩
  · exact gate_reject_of db c s
  · intro hcond
    obtain ⟨t, id, hc, hget⟩ := gate_valid_of_not c s hcond
    exact ⟨t, id, hc, hget, getInt64_set c "user_id" id,
      fun next => gate_accept db next c s t id hc hget⟩

theorem gate_decision_witness :
    ∃ msg, ∀ next : HandlerFunc,
      sessionAuthMiddleware sampleDB next (newContext (cookieRequest "stale"))
          [("local_session_ann_5", 7)] =
        ((newContext (cookieRequest "stale")).AbortWithStatusJSON 401 [("error", msg)],
          [("local_session_ann_5", 7)]) :=
  (gate_decision sampleDB (newContext (cookieRequest "stale")) [("local_session_ann_5", 7)]).2.1
    (Or.inr ⟨"stale", by decide, by decide⟩)

/-- C10: logout and the auth gate only touch the presented token. For every session map and
tokens `t`, `t'` with `t' ≠ t`, `getSessionUserID t'` returns the same pair after the logout
handler has handled cookie `t` as before. The auth gate never changes the session map: when
it rejects it returns the map it was given, when it accepts it hands that same map to the
downstream handler; `GET /protected` returns the map unchanged. So over any sequence of
`GET /protected` requests and of logouts presenting other tokens, the entry of `t'` stays as
it was. -/
theorem logout_and_gate_frame (s : GoMap) :
    (∀ (c : Context) (t t' : String), c.Cookie "session_token" = some t → t' ≠ t →
        getSessionUserID (localLogoutHandler c s).2 t' = getSessionUserID s t') ∧
      (∀ (db : DB) (next : HandlerFunc) (c : Context),
        (∃ msg, sessionAuthMiddleware db next c s =
            (c.AbortWithStatusJSON 401 [("error", msg)], s)) ∨
          ∃ c2, sessionAuthMiddleware db next c s = next c2 s) ∧
      (∀ (db : DB) (req : Request), (getProtected db req s).2 = s) ∧
      (∀ (db : DB) (t' : String) (reqs : List (Route × Request × Int)),
        (∀ e ∈ reqs, e.1 = Route.protectedData ∨
          (e.1 = Route.logout ∧ (newContext e.2.1).Cookie "session_token" ≠ some t')) →
        getSessionUserID (serveAll reqs db s).2 t' = getSessionUserID s t') := by
  refine ⟨?_, fun db next c => gate_store db next c s,
    fun db req => getProtected_store db req s, ?_⟩
  · intro c t t' hc hne
    apply logout_lookup_other c s t'
    rw [hc]
    intro h
    exact hne (Option.some.inj h).symm
  · intro db t' reqs h
    exact serveAll_lookup t' reqs db s h

theorem logout_and_gate_frame_witness :
    getSessionUserID (localLogoutHandler (newContext (cookieRequest "local_session_ann_5"))
          [("local_session_ann_5", 7), ("local_session_bob_6", 9)]).2 "local_session_bob_6" =
        getSessionUserID [("local_session_ann_5", 7), ("local_session_bob_6", 9)]
          "local_session_bob_6" ∧
      getSessionUserID (serveAll
          [(Route.protectedData, cookieRequest "local_session_bob_6", 11),
            (Route.logout, cookieRequest "local_session_ann_5", 12),
            (Route.protectedData, cookieRequest "local_session_ann_5", 13)]
          sampleDB [("local_session_ann_5", 7), ("local_session_bob_6", 9)]).2
          "local_session_bob_6" =
        getSessionUserID [("local_session_ann_5", 7), ("local_session_bob_6", 9)]
          "local_session_bob_6" :=
  ⟨(logout_and_gate_frame [("local_session_ann_5", 7), ("local_session_bob_6", 9)]).1
      (newContext (cookieRequest "local_session_ann_5")) "local_session_ann_5"
      "local_session_bob_6" (by decide) (by decide),
    (logout_and_gate_frame [("local_session_ann_5", 7), ("local_session_bob_6", 9)]).2.2.2
      sampleDB "local_session_bob_6"
      [(Route.protectedData, cookieRequest "local_session_bob_6", 11),
        (Route.logout, cookieRequest "local_session_ann_5", 12),
        (Route.protectedData, cookieRequest "local_session_ann_5", 13)] (by decide)⟩

/-- C5: when the table already holds a row with the (non-empty) username and the lookup
succeeds, a login sends the SELECT and nothing else (no INSERT): the rows and the id counter
are as before, and the session map takes the issued token to the id of the row that
`getUserByUsername` returned, a row of the table with that username. -/
theorem login_existing_user (c : Context) (db : DB) (now : Int) (s : GoMap) (u : String)
    (hb : c.request.username = some u) (hu : u ≠ "")
    (hrow : ∃ r ∈ db.gym_users, r.Username = u)
    (hlookup : (getUserByUsername db u).1.2 = none) :
    ∃ user : User, (getUserByUsername db u).1 = (some user, none) ∧
      user ∈ db.gym_users ∧ user.Username = u ∧
      (localLoginHandler c db now s).2.1.gym_users = db.gym_users ∧
      (localLoginHandler c db now s).2.1.nextID = db.nextID ∧
      (localLoginHandler c db now s).2.1.received =
        db.received ++ [Statement.selectByName u] ∧
      getSessionUserID (localLoginHandler c db now s).2.2 (generateSessionToken u now) =
        (user.ID, true) ∧
      (localLoginHandler c db now s).1.status = 200 ∧
      (localLoginHandler c db now s).1.setCookies = c.setCookies ++
        [{ name := "session_token", value := generateSessionToken u now, maxAge := 3600,
           path := "/", domain := "", secure := false, httpOnly := true }] := by
  obtain ⟨user, hg, hmem, hname⟩ := getUserByUsername_found db u hrow hlookup
  refine ⟨user, hg, hmem, hname, ?_⟩
  rw [login_found c db now s u user hb hu hg, getUserByUsername_db]
  exact ⟨rfl, rfl, rfl, mapIndex_mapAssign_self s _ _, rfl, rfl⟩

theorem login_existing_user_witness :
    ∃ user : User, (getUserByUsername sampleDB "bob").1 = (some user, none) ∧
      user ∈ sampleDB.gym_users ∧ user.Username = "bob" ∧
      (localLoginHandler (newContext (loginRequest "bob")) sampleDB 5 []).2.1.gym_users =
        sampleDB.gym_users ∧
      (localLoginHandler (newContext (loginRequest "bob")) sampleDB 5 []).2.1.nextID =
        sampleDB.nextID ∧
      (localLoginHandler (newContext (loginRequest "bob")) sampleDB 5 []).2.1.received =
        sampleDB.received ++ [Statement.selectByName "bob"] ∧
      getSessionUserID (localLoginHandler (newContext (loginRequest "bob")) sampleDB 5 []).2.2
        (generateSessionToken "bob" 5) = (user.ID, true) ∧
      (localLoginHandler (newContext (loginRequest "bob")) sampleDB 5 []).1.status = 200 ∧
      (localLoginHandler (newContext (loginRequest "bob")) sampleDB 5 []).1.setCookies =
        (newContext (loginRequest "bob")).setCookies ++
          [{ name := "session_token", value := generateSessionToken "bob" 5, maxAge := 3600,
             path := "/", domain := "", secure := false, httpOnly := true }] :=
  login_existing_user (newContext (loginRequest "bob")) sampleDB 5 [] "bob" rfl (by decide)
    ⟨{ ID := 9, Username := "bob", CreatedAt := 200, Role := "admin" }, by decide, rfl⟩
    (by decide)

/-- C6: for a non-empty username with no row in the table, when the lookup and the insert
succeed, one run of the login handler sends the SELECT and then exactly one INSERT: the table
gains exactly one row, with that username and role "user" and the id the insert returned; the
session map takes the issued token to that id; the answer is 200 with a `session_token`
cookie. -/
theorem login_new_user (c : Context) (db : DB) (now : Int) (s : GoMap) (u : String)
    (hb : c.request.username = some u) (hu : u ≠ "")
    (hnew : ∀ r ∈ db.gym_users, r.Username ≠ u)
    (hlookup : (getUserByUsername db u).1.2 = none)
    (hinsert : (createUser (getUserByUsername db u).2 u).1.2 = none) :
    ∃ row : User, row.Username = u ∧ row.Role = "user" ∧
      row.ID = (createUser (getUserByUsername db u).2 u).1.1 ∧
      (localLoginHandler c db now s).2.1.gym_users = db.gym_users ++ [row] ∧
      (localLoginHandler c db now s).2.1.received =
        db.received ++ [Statement.selectByName u, Statement.insertUser u "user"] ∧
      getSessionUserID (localLoginHandler c db now s).2.2 (generateSessionToken u now) =
        (row.ID, true) ∧
      (localLoginHandler c db now s).1.status = 200 ∧
      (localLoginHandler c db now s).1.body = some [("message", "Local login successful")] ∧
      (localLoginHandler c db now s).1.setCookies = c.setCookies ++
        [{ name := "session_token", value := generateSessionToken u now, maxAge := 3600,
           path := "/", domain := "", secure := false, httpOnly := true }] := by
  have hg := getUserByUsername_absent db u hnew hlookup
  have hfault := (createUser_err_iff _ u).mp hinsert
  have hcreate := createUser_ok (getUserByUsername db u).2 u hfault
  rw [login_created c db now s u hb hu hg hinsert, hcreate, getUserByUsername_db]
  refine ⟨{ ID := db.nextID, Username := u, CreatedAt := db.clock, Role := "user" },
    rfl, rfl, rfl, rfl, ?_, mapIndex_mapAssign_self s _ _, rfl, rfl, rfl⟩
  simp

theorem login_new_user_witness :
    ∃ row : User, row.Username = "cy" ∧ row.Role = "user" ∧
      row.ID = (createUser (getUserByUsername sampleDB "cy").2 "cy").1.1 ∧
      (localLoginHandler (newContext (loginRequest "cy")) sampleDB 5 []).2.1.gym_users =
        sampleDB.gym_users ++ [row] ∧
      (localLoginHandler (newContext (loginRequest "cy")) sampleDB 5 []).2.1.received =
        sampleDB.received ++ [Statement.selectByName "cy", Statement.insertUser "cy" "user"] ∧
      getSessionUserID (localLoginHandler (newContext (loginRequest "cy")) sampleDB 5 []).2.2
        (generateSessionToken "cy" 5) = (row.ID, true) ∧
      (localLoginHandler (newContext (loginRequest "cy")) sampleDB 5 []).1.status = 200 ∧
      (localLoginHandler (newContext (loginRequest "cy")) sampleDB 5 []).1.body =
        some [("message", "Local login successful")] ∧
      (localLoginHandler (newContext (loginRequest "cy")) sampleDB 5 []).1.setCookies =
        (newContext (loginRequest "cy")).setCookies ++
          [{ name := "session_token", value := generateSessionToken "cy" 5, maxAge := 3600,
             path := "/", domain := "", secure := false, httpOnly := true }] :=
  login_new_user (newContext (loginRequest "cy")) sampleDB 5 [] "cy" rfl (by decide)
    (by decide) (by decide) (by decide)

/-- C8: for a non-empty username, if `getUserByUsername` returns an error, or it returns
(nil, nil) and `createUser` returns an error, the login handler answers 500, the session map
is the one it was given and no cookie is set. A SELECT that finds no row (`sql.ErrNoRows`)
makes `getUserByUsername` return (nil, nil), no error, and the answer is then 500 only when
`createUser` fails (200 when it succeeds). -/
theorem login_storage_error (c : Context) (db : DB) (now : Int) (s : GoMap) (u : String)
    (hb : c.request.username = some u) (hu : u ≠ "") :
    (((∃ e, (getUserByUsername db u).1.2 = some e) ∨
        ((getUserByUsername db u).1 = (none, none) ∧
          ∃ e, (createUser (getUserByUsername db u).2 u).1.2 = some e)) →
      (localLoginHandler c db now s).1.status = 500 ∧
        (localLoginHandler c db now s).2.2 = s ∧
        (localLoginHandler c db now s).1.setCookies = c.setCookies) ∧
      ((db.queryRowSelect u).1 = Except.error SqlError.ErrNoRows →
        (getUserByUsername db u).1 = (none, none) ∧
          ((createUser (getUserByUsername db u).2 u).1.2 = none →
            (localLoginHandler c db now s).1.status = 200) ∧
          ((localLoginHandler c db now s).1.status = 500 ↔
            (createUser (getUserByUsername db u).2 u).1.2 ≠ none)) := by
  constructor
  · rintro (⟨e, he⟩ | ⟨hg, e, he⟩)
    · rw [login_lookup_error c db now s u e hb hu he]
      exact ⟨rfl, rfl, rfl⟩
    · rw [login_create_error c db now s u e hb hu hg he]
      exact ⟨rfl, rfl, rfl⟩
  · intro hrows
    have hg := getUserByUsername_noRows db u hrows
    refine ⟨hg, ?_, ?_⟩
    · intro he
      rw [login_created c db now s u hb hu hg he]
      rfl
    · cases he : (createUser (getUserByUsername db u).2 u).1.2 with
      | none =>
        rw [login_created c db now s u hb hu hg he]
        exact ⟨fun h => absurd (show (200 : Nat) = 500 from h) (by decide),
          fun h => absurd rfl h⟩
      | some e =>
        rw [login_create_error c db now s u e hb hu hg he]
        exact ⟨fun _ => by simp, fun _ => rfl⟩

theorem login_storage_error_witness :
    ((localLoginHandler (newContext (loginRequest "ann"))
          { sampleDB with selectFault := some "connection refused" } 5
          [("local_session_bob_6", 9)]).1.status = 500 ∧
        (localLoginHandler (newContext (loginRequest "ann"))
          { sampleDB with selectFault := some "connection refused" } 5
          [("local_session_bob_6", 9)]).2.2 = [("local_session_bob_6", 9)] ∧
        (localLoginHandler (newContext (loginRequest "ann"))
          { sampleDB with selectFault := some "connection refused" } 5
          [("local_session_bob_6", 9)]).1.setCookies =
            (newContext (loginRequest "ann")).setCookies) ∧
      (getUserByUsername sampleDB "cy").1 = (none, none) :=
  ⟨(login_storage_error (newContext (loginRequest "ann"))
      { sampleDB with selectFault := some "connection refused" } 5
      [("local_session_bob_6", 9)] "ann" rfl (by decide)).1
      (Or.inl ⟨SqlError.driver "connection refused", by decide⟩),
    ((login_storage_error (newContext (loginRequest "cy")) sampleDB 5 [] "cy" rfl
      (by decide)).2 rfl).1⟩

/-- C1: for every session map, database and non-empty username for which the lookup and,
when no row is found, the insert succeed, the login handler answers 200 and sets the cookie
`session_token` to a token that the resulting session map takes to the user id of that login
(the id of the row found, else the id the insert returned). Every request presenting that
token passes the auth gate on the resulting map with `user_id` set to that id, and
`GET /protected` answers 200 with "Protected data for user ID: " followed by that id. -/
theorem login_token_resolves (c : Context) (db : DB) (now : Int) (s : GoMap) (u : String)
    (hb : c.request.username = some u) (hu : u ≠ "")
    (hlookup : (getUserByUsername db u).1.2 = none)
    (hinsert : (getUserByUsername db u).1.1 = none →
      (createUser (getUserByUsername db u).2 u).1.2 = none) :
    ∃ id : Int,
      (∀ user, (getUserByUsername db u).1.1 = some user → id = user.ID) ∧
      ((getUserByUsername db u).1.1 = none →
        id = (createUser (getUserByUsername db u).2 u).1.1) ∧
      (localLoginHandler c db now s).1.status = 200 ∧
      (localLoginHandler c db now s).1.setCookies = c.setCookies ++
        [{ name := "session_token", value := generateSessionToken u now, maxAge := 3600,
           path := "/", domain := "", secure := false, httpOnly := true }] ∧
      getSessionUserID (localLoginHandler c db now s).2.2 (generateSessionToken u now) =
        (id, true) ∧
      (∀ (db2 : DB) (c2 : Context),
        c2.Cookie "session_token" = some (generateSessionToken u now) →
        (c2.Set "user_id" id).GetInt64 "user_id" = id ∧
        ∀ next : HandlerFunc,
          sessionAuthMiddleware db2 next c2 (localLoginHandler c db now s).2.2 =
            next (c2.Set "user_id" id) (localLoginHandler c db now s).2.2) ∧
      (∀ (db2 : DB) (req : Request),
        (newContext req).Cookie "session_token" = some (generateSessionToken u now) →
        (getProtected db2 req (localLoginHandler c db now s).2.2).1.status = 200 ∧
        (getProtected db2 req (localLoginHandler c db now s).2.2).1.body =
          some [("message", "Protected data for user ID: " ++ fmtD id)] ∧
        (getProtected db2 req (localLoginHandler c db now s).2.2).1.aborted = false) := by
  have key : ∀ (id : Int) (s2 : GoMap),
      getSessionUserID s2 (generateSessionToken u now) = (id, true) →
      (∀ (db2 : DB) (c2 : Context),
        c2.Cookie "session_token" = some (generateSessionToken u now) →
        (c2.Set "user_id" id).GetInt64 "user_id" = id ∧
        ∀ next : HandlerFunc,
          sessionAuthMiddleware db2 next c2 s2 = next (c2.Set "user_id" id) s2) ∧
      (∀ (db2 : DB) (req : Request),
        (newContext req).Cookie "session_token" = some (generateSessionToken u now) →
        (getProtected db2 req s2).1.status = 200 ∧
        (getProtected db2 req s2).1.body =
          some [("message", "Protected data for user ID: " ++ fmtD id)] ∧
        (getProtected db2 req s2).1.aborted = false) := by
    intro id s2 hget
    refine ⟨fun db2 c2 hc => ⟨getInt64_set c2 "user_id" id,
      fun next => gate_accept db2 next c2 s2 _ id hc hget⟩, ?_⟩
    intro db2 req hc
    unfold getProtected
    rw [gate_accept db2 protectedHandler (newContext req) s2 _ id hc hget]
    simp only [protectedHandler, getInt64_set]
    exact ⟨rfl, rfl, rfl⟩
  cases huser : (getUserByUsername db u).1.1 with
  | some user =>
    have hg : (getUserByUsername db u).1 = (some user, none) := by
      rw [← huser, ← hlookup]
    have hget : getSessionUserID (localLoginHandler c db now s).2.2
        (generateSessionToken u now) = (user.ID, true) := by
      rw [login_found c db now s u user hb hu hg]
      exact mapIndex_mapAssign_self s _ _
    refine ⟨user.ID, ?_, ?_, ?_, ?_, hget, key _ _ hget⟩
    · intro user2 h2
      cases h2
      rfl
    · intro h2
      exact Option.noConfusion h2
    · rw [login_found c db now s u user hb hu hg]; rfl
    · rw [login_found c db now s u user hb hu hg]; rfl
  | none =>
    have hg : (getUserByUsername db u).1 = (none, none) := by
      rw [← huser, ← hlookup]
    have he := hinsert huser
    have hget : getSessionUserID (localLoginHandler c db now s).2.2
        (generateSessionToken u now) =
          ((createUser (getUserByUsername db u).2 u).1.1, true) := by
      rw [login_created c db now s u hb hu hg he]
      exact mapIndex_mapAssign_self s _ _
    refine ⟨(createUser (getUserByUsername db u).2 u).1.1, ?_, ?_, ?_, ?_, hget,
      key _ _ hget⟩
    · intro user2 h2
      exact Option.noConfusion h2
    · intro _
      rfl
    · rw [login_created c db now s u hb hu hg he]; rfl
    · rw [login_created c db now s u hb hu hg he]; rfl

theorem login_token_resolves_witness :
    ∃ id : Int,
      (∀ user, (getUserByUsername sampleDB "ann").1.1 = some user → id = user.ID) ∧
      ((getUserByUsername sampleDB "ann").1.1 = none →
        id = (createUser (getUserByUsername sampleDB "ann").2 "ann").1.1) ∧
      (localLoginHandler (newContext (loginRequest "ann")) sampleDB 5 []).1.status = 200 ∧
      (localLoginHandler (newContext (loginRequest "ann")) sampleDB 5 []).1.setCookies =
        (newContext (loginRequest "ann")).setCookies ++
          [{ name := "session_token", value := generateSessionToken "ann" 5, maxAge := 3600,
             path := "/", domain := "", secure := false, httpOnly := true }] ∧
      getSessionUserID (localLoginHandler (newContext (loginRequest "ann")) sampleDB 5 []).2.2
        (generateSessionToken "ann" 5) = (id, true) ∧
      (∀ (db2 : DB) (c2 : Context),
        c2.Cookie "session_token" = some (generateSessionToken "ann" 5) →
        (c2.Set "user_id" id).GetInt64 "user_id" = id ∧
        ∀ next : HandlerFunc,
          sessionAuthMiddleware db2 next c2
              (localLoginHandler (newContext (loginRequest "ann")) sampleDB 5 []).2.2 =
            next (c2.Set "user_id" id)
              (localLoginHandler (newContext (loginRequest "ann")) sampleDB 5 []).2.2) ∧
      (∀ (db2 : DB) (req : Request),
        (newContext req).Cookie "session_token" = some (generateSessionToken "ann" 5) →
        (getProtected db2 req
          (localLoginHandler (newContext (loginRequest "ann")) sampleDB 5 []).2.2).1.status
            = 200 ∧
        (getProtected db2 req
          (localLoginHandler (newContext (loginRequest "ann")) sampleDB 5 []).2.2).1.body =
            some [("message", "Protected data for user ID: " ++ fmtD id)] ∧
        (getProtected db2 req
          (localLoginHandler (newContext (loginRequest "ann")) sampleDB 5 []).2.2).1.aborted
            = false) :=
  login_token_resolves (newContext (loginRequest "ann")) sampleDB 5 [] "ann" rfl (by decide)
    (by decide) (by decide)

/-- C9: `generateSessionToken` is injective in the pair (username, clock reading): equal
tokens come from equal usernames and equal clock readings, for all strings and all integers
(so for every `int64`). Hence a login whose pair (username, clock reading) differs from that
of a token leaves the session entry of that token as it was: only a login with the same
username and the same clock reading can overwrite the entry. -/
theorem token_injective :
    (∀ (u1 u2 : String) (n1 n2 : Int),
        generateSessionToken u1 n1 = generateSessionToken u2 n2 → u1 = u2 ∧ n1 = n2) ∧
      (∀ (u1 u2 : String) (n1 n2 : Int), u1 ≠ u2 →
        generateSessionToken u1 n1 ≠ generateSessionToken u2 n2) ∧
      (∀ (c : Context) (db : DB) (s : GoMap) (u1 u2 : String) (n1 n2 : Int),
        c.request.username = some u2 → (u1 ≠ u2 ∨ n1 ≠ n2) →
        getSessionUserID (localLoginHandler c db n2 s).2.2 (generateSessionToken u1 n1) =
          getSessionUserID s (generateSessionToken u1 n1)) := by
  refine ⟨generateSessionToken_inj, ?_, ?_⟩
  · intro u1 u2 n1 n2 hne h
    exact hne (generateSessionToken_inj u1 u2 n1 n2 h).1
  · intro c db s u1 u2 n1 n2 hb hne
    apply login_store_of_other c db n2 s u2 _ hb
    intro h
    have := generateSessionToken_inj u1 u2 n1 n2 h
    rcases hne with h1 | h2
    · exact h1 this.1
    · exact h2 this.2

theorem token_injective_witness :
    ("a_1" = "a_1" ∧ (23 : Int) = 23) ∧
      generateSessionToken "a_1" 23 ≠ generateSessionToken "a" 123 ∧
      getSessionUserID (localLoginHandler (newContext (loginRequest "a")) sampleDB 123
          [("local_session_a_1_23", 4)]).2.2 (generateSessionToken "a_1" 23) =
        getSessionUserID [("local_session_a_1_23", 4)] (generateSessionToken "a_1" 23) :=
  ⟨token_injective.1 "a_1" "a_1" 23 23 rfl,
    token_injective.2.1 "a_1" "a" 23 123 (by decide),
    token_injective.2.2 (newContext (loginRequest "a")) sampleDB [("local_session_a_1_23", 4)]
      "a_1" "a" 23 123 rfl (Or.inl (by decide))⟩

end CrowdBeats
